import Mathlib

/-!
Verification development for the postgres backend of rhosocial-activerecord.

The definitions below are shallow embeddings of the Python sources:

* `buildScan`, `build`, `buildParams` embed
  `PostgresSQLBuilder.build` (src/.../impl/postgres/dialect.py).
  SQL text is a list of characters; the positional placeholder is the
  two-character marker percent-s scanned left to right exactly as
  `re.finditer` does (the two marker characters differ, so occurrences can
  never overlap and the scan finds every occurrence).
* `mapException` embeds `PostgresBackendMixin._map_exception`
  (src/.../impl/postgres/backend.py).  Following the psycopg3 class
  hierarchy, the deadlock-specific exception type `DeadlockDetected`
  (SQLSTATE 40P01) is a subclass of `OperationalError`, so the
  operational-error `isinstance` test matches it.
* `backendHandleError` embeds `PostgresBackend._handle_error` and
  `AsyncPostgresBackend._handle_error` (src/.../impl/postgres/backend.py;
  both have the identical map-log-raise body);
  `asyncHandleError`, `tryRollbackActions` and `asyncClassifyError` embed
  `AsyncPostgresBackend._handle_error` / `_try_rollback_transaction` of
  src/.../impl/postgres/async_backend.py.
* `setDeferrable`, `doBegin`, `doCommit`, `doRollback`,
  `doCreateSavepoint`, `buildBeginStatement` embed the
  `PostgresTransactionMixin` / `PostgresTransactionManager` logic of
  src/.../impl/postgres/transaction.py (the async manager in the same
  module repeats the same bodies verbatim, so the model covers both).
* `beginA`, `commitA`, `rollbackA`, `createSavepointA`,
  `rollbackToSavepointA`, `releaseSavepointA` embed
  `AsyncPostgresTransactionManager` of
  src/.../impl/postgres/async_transaction.py.

Driver calls (cursor execute and connection commit/rollback) are modelled
as emitted statement traces; driver failures are modelled by explicit
failure parameters where a claim depends on them.  Logging is not
modelled.
-/

/-- Percent character of the placeholder marker. -/
def pctChar : Char := '%'

/-- Letter s character of the placeholder marker. -/
def sChar : Char := 's'

/-- Parameters accepted by the builder: a raw SQL expression
(`PostgresExpression`, whose `format` returns its text verbatim) or a
literal value to be bound by the driver. -/
inductive Param where
  | expr (text : List Char)
  | val (v : Int)
deriving DecidableEq

/-- Whether a parameter is an inline SQL expression. -/
def Param.isExpr : Param → Bool
  | .expr _ => true
  | .val _ => false

/-- Count-mismatch errors raised by `PostgresSQLBuilder.build`: the two
`ValueError` branches, with the counts they report. -/
inductive BuildError where
  | tooFewParams (expectedAtLeast provided : Nat)
  | tooManyParams (expected provided : Nat)
deriving DecidableEq

/-- Whether a character list begins with the letter s. -/
def headIsS : List Char → Bool
  | [] => false
  | c :: _ => c == sChar

/-- Number of placeholder markers in a character list, scanned left to
right exactly as the regex scan of `build` does (the two marker characters
differ, so occurrences never overlap). -/
def countPH : List Char → Nat
  | [] => 0
  | _ :: [] => 0
  | c1 :: c2 :: rest =>
    if c1 == pctChar && c2 == sChar then countPH rest + 1
    else countPH (c2 :: rest)

/-- Character lists without any placeholder marker occurrence. -/
def noMarker : List Char → Bool
  | [] => true
  | _ :: [] => true
  | c1 :: c2 :: rest => !(c1 == pctChar && c2 == sChar) && noMarker (c2 :: rest)

/-- An expression text is splice-safe when surrounding it with the two
marker characters still yields no marker: the text is nonempty, contains
no marker, does not start with the letter s and does not end with the
percent character, so inlining it at a placeholder cannot create a marker
in the output. -/
def exprSafe (t : List Char) : Bool := noMarker (pctChar :: (t ++ [sChar]))

/-- All expression parameters of a list are splice-safe. -/
def paramsSafe : List Param → Bool
  | [] => true
  | .expr t :: ps => exprSafe t && paramsSafe ps
  | .val _ :: ps => paramsSafe ps

/-- The scanning loop of `PostgresSQLBuilder.build`: walk the SQL text,
and at each placeholder consume one parameter, either inlining an
expression or keeping the marker and collecting the literal; `idx` is the
running placeholder index and `total` the length of the parameter tuple,
as reported in the error messages. -/
def buildScan (total : Nat) : List Char → List Param → Nat →
    Except BuildError (List Char × List Int)
  | [], [], _ => .ok ([], [])
  | [], _ :: _, idx => .error (.tooManyParams idx total)
  | [c], ps, idx =>
    match buildScan total [] ps idx with
    | .ok (out, bps) => .ok (c :: out, bps)
    | .error e => .error e
  | c1 :: c2 :: rest, ps, idx =>
    if c1 == pctChar && c2 == sChar then
      match ps with
      | p :: ps2 =>
        match p with
        | .expr t =>
          match buildScan total rest ps2 (idx + 1) with
          | .ok (out, bps) => .ok (t ++ out, bps)
          | .error e => .error e
        | .val v =>
          match buildScan total rest ps2 (idx + 1) with
          | .ok (out, bps) => .ok (pctChar :: sChar :: out, v :: bps)
          | .error e => .error e
      | [] => .error (.tooFewParams (idx + 1) total)
    else
      match buildScan total (c2 :: rest) ps idx with
      | .ok (out, bps) => .ok (c1 :: out, bps)
      | .error e => .error e

/-- The three forms the `params` argument of `build` may take: tuple,
list, or dict (an insertion-ordered association list). -/
inductive ParamsArg where
  | tup (ps : List Param)
  | lst (ps : List Param)
  | dct (entries : List (String × Param))

/-- Python truthiness test `not params` on the original argument. -/
def ParamsArg.isEmptyArg : ParamsArg → Bool
  | .tup ps => ps.isEmpty
  | .lst ps => ps.isEmpty
  | .dct es => es.isEmpty

/-- The `params_tuple` normalisation of `build`: a list is converted to a
tuple, a dict contributes its values in insertion order, a tuple is kept. -/
def ParamsArg.toTuple : ParamsArg → List Param
  | .tup ps => ps
  | .lst ps => ps
  | .dct es => es.map Prod.snd

/-- `PostgresSQLBuilder.build` on any accepted argument form: empty or
missing parameters short-circuit to the unchanged template, otherwise the
scan runs on the normalised tuple. -/
def buildParams (sql : List Char) (arg : ParamsArg) :
    Except BuildError (List Char × List Int) :=
  if arg.isEmptyArg then .ok (sql, [])
  else buildScan arg.toTuple.length sql arg.toTuple 0

/-- `PostgresSQLBuilder.build` applied to a tuple of parameters. -/
def build (sql : List Char) (ps : List Param) :
    Except BuildError (List Char × List Int) :=
  buildParams sql (.tup ps)

instance {ε α : Type} [DecidableEq ε] [DecidableEq α] : DecidableEq (Except ε α) :=
  fun a b =>
    match a, b with
    | .ok x, .ok y => decidable_of_iff (x = y) (by simp)
    | .error x, .error y => decidable_of_iff (x = y) (by simp)
    | .ok _, .error _ => isFalse (by simp)
    | .error _, .ok _ => isFalse (by simp)

/-- The literal (non-expression) values of a parameter list, in order. -/
def literalVals : List Param → List Int
  | [] => []
  | .expr _ :: ps => literalVals ps
  | .val v :: ps => v :: literalVals ps

/-- Transaction states of the state machine
(`TransactionState` of the base transaction module). -/
inductive TxState where
  | inactive
  | active
  | committed
  | rolledBack
  | failed
deriving DecidableEq

/-- Isolation levels supported by the managers. -/
inductive IsolationLevel where
  | readUncommitted
  | readCommitted
  | repeatableRead
  | serializable
deriving DecidableEq

/-- The `_ISOLATION_LEVELS` name mapping of the managers. -/
def isolationLevelName : IsolationLevel → String
  | .readUncommitted => "READ UNCOMMITTED"
  | .readCommitted => "READ COMMITTED"
  | .repeatableRead => "REPEATABLE READ"
  | .serializable => "SERIALIZABLE"

/-- The `TransactionError` raised on transaction protocol violations. -/
inductive TxError where
  | transactionError (msg : String)
deriving DecidableEq

/-- State of `PostgresTransactionManager` together with the connection
facts its `is_active` property consults (connection presence, closedness,
autocommit flag). -/
structure PgTxMixinState where
  connPresent : Bool
  connClosed : Bool
  connAutocommit : Bool
  activeTransaction : Bool
  state : TxState
  isolationLevel : Option IsolationLevel
  isDeferrable : Option Bool
  activeSavepoint : Option String
  savepointCounter : Nat
  deferredConstraints : List String
deriving DecidableEq

/-- The `is_active` property of `PostgresTransactionMixin`: false without
an open, non-autocommit connection, otherwise the tracked flag. -/
def PgTxMixinState.isActive (st : PgTxMixinState) : Bool :=
  st.connPresent && !st.connClosed && !st.connAutocommit && st.activeTransaction

/-- The `set_deferrable` method of `PostgresTransactionMixin`: the stored
flag is assigned first; only then is an active transaction rejected with a
`TransactionError` (the paired option is the raised error, if any). -/
def setDeferrable (st : PgTxMixinState) (flag : Bool) :
    PgTxMixinState × Option TxError :=
  let st1 := { st with isDeferrable := some flag }
  if st1.isActive then
    (st1, some (.transactionError "Cannot change deferrable mode of active transaction"))
  else
    (st1, none)

/-- The `_build_begin_statement` method: BEGIN, the isolation-level clause
when a level is set, and the deferrable clause when the level is
SERIALIZABLE and a deferrable flag was supplied. -/
def buildBeginStatement (st : PgTxMixinState) : String :=
  let parts := ["BEGIN"]
  let parts :=
    match st.isolationLevel with
    | some lvl => parts ++ ["ISOLATION LEVEL " ++ isolationLevelName lvl]
    | none => parts
  let parts :=
    if st.isolationLevel = some .serializable ∧ st.isDeferrable ≠ none then
      parts ++ [if st.isDeferrable = some true then "DEFERRABLE" else "NOT DEFERRABLE"]
    else parts
  String.intercalate " " parts

/-- The `_do_begin` method on the successful path: switch the connection
out of autocommit, send the composed BEGIN statement, mark the
transaction active. -/
def doBegin (st : PgTxMixinState) : PgTxMixinState × List String :=
  let st1 := { st with connAutocommit := false }
  ({ st1 with activeTransaction := true, state := .active },
    [buildBeginStatement st1])

/-- The `_do_create_savepoint` method on the successful path: implicitly
begin when no transaction is active, send SAVEPOINT, record the name. -/
def doCreateSavepoint (st : PgTxMixinState) (name : String) :
    PgTxMixinState × List String :=
  if !st.isActive then
    let r := doBegin st
    ({ r.1 with activeSavepoint := some name }, r.2 ++ ["SAVEPOINT " ++ name])
  else
    ({ st with activeSavepoint := some name }, ["SAVEPOINT " ++ name])

/-- The `_do_commit` method: on success the transaction is marked
committed, on a driver failure (`commitFailure` carries its message) the
state fields are left alone and a `TransactionError` is raised; the
`finally` block clears the savepoint tracking, the counter and the
deferred-constraint list in both cases. -/
def doCommit (st : PgTxMixinState) (commitFailure : Option String) :
    PgTxMixinState × Option TxError :=
  match commitFailure with
  | none =>
    ({ st with
        activeTransaction := false
        state := .committed
        activeSavepoint := none
        savepointCounter := 0
        deferredConstraints := [] },
      none)
  | some msg =>
    ({ st with activeSavepoint := none, savepointCounter := 0, deferredConstraints := [] },
      some (.transactionError ("Failed to commit transaction: " ++ msg)))

/-- The `_do_rollback` method, with the same unconditional cleanup as
`doCommit`. -/
def doRollback (st : PgTxMixinState) (rollbackFailure : Option String) :
    PgTxMixinState × Option TxError :=
  match rollbackFailure with
  | none =>
    ({ st with
        activeTransaction := false
        state := .rolledBack
        activeSavepoint := none
        savepointCounter := 0
        deferredConstraints := [] },
      none)
  | some msg =>
    ({ st with activeSavepoint := none, savepointCounter := 0, deferredConstraints := [] },
      some (.transactionError ("Failed to rollback transaction: " ++ msg)))

/-- State of the `AsyncPostgresTransactionManager` of
async_transaction.py: the state enum, the tracked savepoint stack
(`self.savepoints`, owned by the base class and manipulated only by the
savepoint methods), and the subclass-private savepoint counter. -/
structure ATxState where
  state : TxState
  savepoints : List String
  savepointCounter : Nat
deriving DecidableEq

/-- State of a freshly constructed manager. -/
def ATxState.initial : ATxState :=
  { state := .inactive, savepoints := [], savepointCounter := 0 }

/-- The `begin` method of async_transaction.py: reject an active
transaction, optionally send the isolation-level statement, send BEGIN,
mark active. -/
def beginA (st : ATxState) (isolation : Option IsolationLevel) :
    Except TxError (ATxState × List String) :=
  if st.state = .active then
    .error (.transactionError
      "Transaction already active. Use savepoints for nested transactions.")
  else
    let pre :=
      match isolation with
      | some lvl => ["SET TRANSACTION ISOLATION LEVEL " ++ isolationLevelName lvl]
      | none => []
    .ok ({ st with state := .active }, pre ++ ["BEGIN"])

/-- The `commit` method of async_transaction.py: reject a non-active
state, send COMMIT, mark committed.  Note that neither the savepoint
stack nor the counter is touched. -/
def commitA (st : ATxState) : Except TxError (ATxState × List String) :=
  if st.state ≠ .active then
    .error (.transactionError "No active transaction to commit.")
  else
    .ok ({ st with state := .committed }, ["COMMIT"])

/-- The `rollback` method of async_transaction.py. -/
def rollbackA (st : ATxState) : Except TxError (ATxState × List String) :=
  if st.state ≠ .active ∧ st.state ≠ .failed then
    .error (.transactionError "No active or failed transaction to rollback.")
  else
    .ok ({ st with state := .rolledBack }, ["ROLLBACK"])

/-- The `create_savepoint` method of async_transaction.py: reject a
non-active state, otherwise name the savepoint (generating
sp_counter when no name is given; the counter advances in either case),
send SAVEPOINT and push the name.  Returns the statements sent and the
name used. -/
def createSavepointA (st : ATxState) (name : Option String) :
    Except TxError (ATxState × List String × String) :=
  if st.state ≠ .active then
    .error (.transactionError "Cannot create savepoint outside of an active transaction.")
  else
    let spName := name.getD ("sp_" ++ toString st.savepointCounter)
    .ok ({ st with
            savepointCounter := st.savepointCounter + 1
            savepoints := st.savepoints ++ [spName] },
      ["SAVEPOINT " ++ spName], spName)

/-- The `rollback_to_savepoint` method of async_transaction.py: reject an
untracked name, otherwise send the statement and truncate the stack just
after the (first) index of the name. -/
def rollbackToSavepointA (st : ATxState) (name : String) :
    Except TxError (ATxState × List String) :=
  if name ∈ st.savepoints then
    .ok ({ st with savepoints := st.savepoints.take (st.savepoints.indexOf name + 1) },
      ["ROLLBACK TO SAVEPOINT " ++ name])
  else
    .error (.transactionError
      ("Savepoint '" ++ name ++ "' does not exist or has already been released."))

/-- The `release_savepoint` method of async_transaction.py: reject an
untracked name, otherwise send the statement and remove the (first)
occurrence of the name. -/
def releaseSavepointA (st : ATxState) (name : String) :
    Except TxError (ATxState × List String) :=
  if name ∈ st.savepoints then
    .ok ({ st with savepoints := st.savepoints.erase name },
      ["RELEASE SAVEPOINT " ++ name])
  else
    .error (.transactionError ("Savepoint '" ++ name ++ "' does not exist."))

/-- Native driver exceptions as classified by the backend, keyed by their
psycopg3 type and carrying their message (`str(error)`).
`deadlockDetected` is psycopg3's `DeadlockDetected`, which subclasses
`OperationalError`; `otherPgError` is any other psycopg `Error`;
`nonPgError` is an exception outside the psycopg hierarchy. -/
inductive NativeError where
  | integrityError (msg : String)
  | operationalError (msg : String)
  | deadlockDetected (msg : String)
  | programmingError (msg : String)
  | otherPgError (msg : String)
  | nonPgError (msg : String)
deriving DecidableEq

/-- Message text of a native exception. -/
def NativeError.errStr : NativeError → String
  | .integrityError msg => msg
  | .operationalError msg => msg
  | .deadlockDetected msg => msg
  | .programmingError msg => msg
  | .otherPgError msg => msg
  | .nonPgError msg => msg

/-- The `isinstance(error, PsycopgIntegrityError)` test. -/
def NativeError.isIntegrityInstance : NativeError → Bool
  | .integrityError _ => true
  | _ => false

/-- The `isinstance(error, PsycopgOperationalError)` test; in psycopg3 the
deadlock-specific type subclasses `OperationalError`, so it matches too. -/
def NativeError.isOperationalInstance : NativeError → Bool
  | .operationalError _ => true
  | .deadlockDetected _ => true
  | _ => false

/-- The `isinstance(error, PsycopgDeadlockError)` test. -/
def NativeError.isDeadlockInstance : NativeError → Bool
  | .deadlockDetected _ => true
  | _ => false

/-- The `isinstance(error, PsycopgProgrammingError)` test. -/
def NativeError.isProgrammingInstance : NativeError → Bool
  | .programmingError _ => true
  | _ => false

/-- The `isinstance(error, PsycopgError)` test. -/
def NativeError.isPgErrorInstance : NativeError → Bool
  | .nonPgError _ => false
  | _ => true

/-- Errors visible to the caller after mapping: the typed backend errors,
or the original exception re-raised unchanged when it is outside the
psycopg hierarchy. -/
inductive MappedError where
  | integrityError (msg : String)
  | operationalError (msg : String)
  | deadlockError (msg : String)
  | queryError (msg : String)
  | databaseError (msg : String)
  | reRaised (e : NativeError)
deriving DecidableEq

/-- Whether a mapped error is a `DeadlockError`. -/
def MappedError.isDeadlockErr : MappedError → Bool
  | .deadlockError _ => true
  | _ => false

/-- The `_map_exception` chain of `PostgresBackendMixin` (backend.py):
purely type-based `isinstance` dispatch, in source order.  Because the
deadlock type subclasses the operational type, the deadlock branch is
tested after — and shadowed by — the operational branch. -/
def mapException (e : NativeError) : MappedError :=
  if e.isIntegrityInstance then .integrityError e.errStr
  else if e.isOperationalInstance then .operationalError e.errStr
  else if e.isDeadlockInstance then .deadlockError e.errStr
  else if e.isProgrammingInstance then .queryError e.errStr
  else if e.isPgErrorInstance then .databaseError e.errStr
  else .reRaised e

/-- Recovery statements a handler may send before re-raising: a rollback
through the transaction manager, or a rollback directly on the
connection. -/
inductive RecoveryAction where
  | managerRollback
  | directConnectionRollback
deriving DecidableEq

/-- The `_handle_error` method of `PostgresBackend` and of
`AsyncPostgresBackend` in backend.py: map the exception, log, raise the
mapped error.  No recovery statement is sent, and the transaction state
(`txOpen`) is never consulted. -/
def backendHandleError (txOpen : Bool) (e : NativeError) :
    List RecoveryAction × MappedError :=
  ([], mapException e)

/-- Whether the first list is a prefix of the second, character by
character. -/
def isPrefixOfChars : List Char → List Char → Bool
  | [], _ => true
  | _ :: _, [] => false
  | a :: as, b :: bs => a == b && isPrefixOfChars as bs

/-- Whether the needle occurs as a contiguous substring of the haystack
(the Python `in` test on strings). -/
def containsSubChars (needle : List Char) : List Char → Bool
  | [] => needle.isEmpty
  | c :: rest => isPrefixOfChars needle (c :: rest) || containsSubChars needle rest

/-- Lowercased character list of a message (`error_msg.lower()`). -/
def lowerChars (msg : String) : List Char := msg.toList.map Char.toLower

/-- The classification chain of `AsyncPostgresBackend._handle_error` in
async_backend.py: type dispatch refined by lowercased-substring checks on
the message. -/
def asyncClassifyError (e : NativeError) : MappedError :=
  let m := lowerChars e.errStr
  if e.isIntegrityInstance then
    if containsSubChars "duplicate key value violates unique constraint".toList m then
      .integrityError ("Unique constraint violation: " ++ e.errStr)
    else if containsSubChars "violates foreign key constraint".toList m then
      .integrityError ("Foreign key constraint violation: " ++ e.errStr)
    else .integrityError e.errStr
  else if e.isOperationalInstance then
    if containsSubChars "deadlock detected".toList m then .deadlockError e.errStr
    else .operationalError e.errStr
  else if e.isProgrammingInstance then .queryError e.errStr
  else if e.isDeadlockInstance then .deadlockError e.errStr
  else if e.isPgErrorInstance then .databaseError e.errStr
  else .reRaised e

/-- The environment `_try_rollback_transaction` runs in: whether a
transaction manager exists and reports active, whether a connection
exists and is closed, and whether each rollback attempt fails. -/
structure RollbackEnv where
  managerPresent : Bool
  managerActive : Bool
  connPresent : Bool
  connClosed : Bool
  managerRollbackFails : Bool
  directRollbackFails : Bool
deriving DecidableEq

/-- The recovery statements sent by `_try_rollback_transaction` of
async_backend.py: a manager rollback when the manager is active (its
failure aborts the helper via the outer swallow-all handler, skipping the
direct attempt), then a direct connection rollback when the connection is
open (its failure is swallowed by the inner handler).  No failure
escapes. -/
def tryRollbackActions (env : RollbackEnv) : List RecoveryAction :=
  let directPart :=
    if env.connPresent && !env.connClosed then [RecoveryAction.directConnectionRollback]
    else []
  if env.managerPresent && env.managerActive then
    if env.managerRollbackFails then [RecoveryAction.managerRollback]
    else RecoveryAction.managerRollback :: directPart
  else directPart

/-- The `_handle_error` method of `AsyncPostgresBackend` in
async_backend.py: attempt the recovery rollback first, then classify the
original exception and raise the classification. -/
def asyncHandleError (env : RollbackEnv) (e : NativeError) :
    List RecoveryAction × MappedError :=
  (tryRollbackActions env, asyncClassifyError e)

/-- Sample manager state with an active transaction, a usable connection,
an advanced savepoint counter and tracked bookkeeping. -/
def sampleActiveTx : PgTxMixinState :=
  { connPresent := true
    connClosed := false
    connAutocommit := false
    activeTransaction := true
    state := .active
    isolationLevel := none
    isDeferrable := none
    activeSavepoint := some "SP_2"
    savepointCounter := 3
    deferredConstraints := ["orders_fk"] }

/-- Sample manager state with no transaction and an autocommit connection. -/
def sampleInactiveTx : PgTxMixinState :=
  { connPresent := true
    connClosed := false
    connAutocommit := true
    activeTransaction := false
    state := .inactive
    isolationLevel := none
    isDeferrable := none
    activeSavepoint := none
    savepointCounter := 0
    deferredConstraints := [] }

-- Sanity checks of the builder embedding on the worked examples of the
-- specification.
example :
    build "UPDATE t SET age=%s WHERE id=%s".toList
      [.expr "age+1".toList, .val 5] =
    .ok ("UPDATE t SET age=age+1 WHERE id=%s".toList, [5]) := by decide

example : build "SELECT 1".toList [.val 3] =
    .error (.tooManyParams 0 1) := by decide

example : build "%s %s".toList [.val 3] =
    .error (.tooFewParams 2 1) := by decide

theorem countPH_cons (c : Char) (l : List Char)
    (h : (c == pctChar && headIsS l) = false) : countPH (c :: l) = countPH l := by
  cases l with
  | nil => rfl
  | cons d l2 =>
    have hd : (c == pctChar && d == sChar) = false := h
    simp only [countPH, hd, Bool.false_eq_true, if_false]

theorem countPH_append_safe :
    ∀ (t : List Char), noMarker (t ++ [sChar]) = true →
    ∀ (out : List Char), countPH (t ++ out) = countPH out := by
  intro t
  induction t with
  | nil => intro _ out; rfl
  | cons a t2 ih =>
    intro h out
    cases t2 with
    | nil =>
      have ha : (a == pctChar) = false := by
        by_contra hc
        have : a = pctChar := by
          cases h2 : a == pctChar with
          | false => exact absurd h2 hc
          | true => exact eq_of_beq h2
        subst this
        simp [noMarker] at h
      have : (a == pctChar && headIsS out) = false := by
        simp [ha]
      simpa using countPH_cons a out this
    | cons b t3 =>
      have hsplit : (!(a == pctChar && b == sChar) &&
          noMarker ((b :: t3) ++ [sChar])) = true := h
      rw [Bool.and_eq_true] at hsplit
      have hab : (a == pctChar && b == sChar) = false := by
        have h1 := hsplit.1
        revert h1
        cases a == pctChar && b == sChar <;> simp
      have hcons : countPH (a :: (b :: t3 ++ out)) = countPH (b :: t3 ++ out) := by
        apply countPH_cons
        simpa [headIsS] using hab
      calc countPH ((a :: b :: t3) ++ out) = countPH ((b :: t3) ++ out) := hcons
        _ = countPH out := ih hsplit.2 out

theorem exprSafe_parts (t : List Char) (h : exprSafe t = true) :
    noMarker (t ++ [sChar]) = true ∧ headIsS t = false ∧ t ≠ [] := by
  cases t with
  | nil => simp [exprSafe, noMarker, pctChar, sChar] at h
  | cons a t2 =>
    have hsplit : (!(pctChar == pctChar && a == sChar) &&
        noMarker ((a :: t2) ++ [sChar])) = true := h
    rw [Bool.and_eq_true] at hsplit
    obtain ⟨h1, h2⟩ := hsplit
    have ha : (a == sChar) = false := by
      revert h1
      cases a == sChar <;> simp
    exact ⟨h2, ha, by simp⟩

theorem headIsS_append (t out : List Char) (h : t ≠ []) :
    headIsS (t ++ out) = headIsS t := by
  cases t with
  | nil => exact absurd rfl h
  | cons a t2 => rfl

theorem buildScan_count (total : Nat) (sql : List Char) (ps : List Param) (idx : Nat) :
    ∀ (out : List Char) (bps : List Int),
    buildScan total sql ps idx = .ok (out, bps) → paramsSafe ps = true →
    countPH out = bps.length ∧ headIsS out = headIsS sql := by
  induction sql, ps, idx using buildScan.induct total with
  | case1 x =>
    intro out bps hok _
    simp only [buildScan, Except.ok.injEq, Prod.mk.injEq] at hok
    obtain ⟨ho, hb⟩ := hok
    subst ho; subst hb
    exact ⟨rfl, rfl⟩
  | case2 p ps2 idx =>
    intro out bps hok _
    exact Except.noConfusion hok
  | case3 c ps idx out2 bps2 hinner ih =>
    intro out bps hok hs
    rw [buildScan, hinner] at hok
    simp only [Except.ok.injEq, Prod.mk.injEq] at hok
    obtain ⟨ho, hb⟩ := hok
    subst ho; subst hb
    obtain ⟨hcnt, hhead⟩ := ih out2 bps2 hinner hs
    have hh0 : headIsS out2 = false := by
      rw [hhead]; rfl
    constructor
    · rw [countPH_cons c out2 (by simp [hh0])]
      exact hcnt
    · rfl
  | case4 c ps idx e hinner ih =>
    intro out bps hok _
    rw [buildScan, hinner] at hok
    simp at hok
  | case5 c1 c2 rest idx hm ps2 text out2 bps2 hinner ih =>
    intro out bps hok hs
    rw [buildScan, if_pos hm, hinner] at hok
    simp only [Except.ok.injEq, Prod.mk.injEq] at hok
    obtain ⟨ho, hb⟩ := hok
    subst ho; subst hb
    have hsafe : exprSafe text = true ∧ paramsSafe ps2 = true := by
      have := hs
      rw [paramsSafe, Bool.and_eq_true] at this
      exact this
    obtain ⟨hcnt, hhead⟩ := ih out2 bps2 hinner hsafe.2
    obtain ⟨hnm, hhd, hne⟩ := exprSafe_parts text hsafe.1
    have hc1 : c1 = pctChar := by
      rw [Bool.and_eq_true] at hm
      exact eq_of_beq hm.1
    constructor
    · rw [countPH_append_safe text hnm out2]
      exact hcnt
    · rw [headIsS_append text out2 hne, hhd]
      subst hc1
      simp [headIsS, pctChar, sChar]
  | case6 c1 c2 rest idx hm ps2 text e hinner ih =>
    intro out bps hok _
    rw [buildScan, if_pos hm, hinner] at hok
    simp at hok
  | case7 c1 c2 rest idx hm ps2 v out2 bps2 hinner ih =>
    intro out bps hok hs
    rw [buildScan, if_pos hm, hinner] at hok
    simp only [Except.ok.injEq, Prod.mk.injEq] at hok
    obtain ⟨ho, hb⟩ := hok
    subst ho; subst hb
    have hs2 : paramsSafe ps2 = true := hs
    obtain ⟨hcnt, hhead⟩ := ih out2 bps2 hinner hs2
    have hc1 : c1 = pctChar := by
      rw [Bool.and_eq_true] at hm
      exact eq_of_beq hm.1
    constructor
    · rw [countPH, if_pos (by simp [pctChar, sChar]), hcnt]
      rfl
    · subst hc1
      simp [headIsS, pctChar, sChar]
  | case8 c1 c2 rest idx hm ps2 v e hinner ih =>
    intro out bps hok _
    rw [buildScan, if_pos hm, hinner] at hok
    simp at hok
  | case9 c1 c2 rest idx hm =>
    intro out bps hok _
    rw [buildScan, if_pos hm] at hok
    simp at hok
  | case10 c1 c2 rest ps idx hm out2 bps2 hinner ih =>
    intro out bps hok hs
    have hm2 : (c1 == pctChar && c2 == sChar) = false := by
      revert hm
      cases c1 == pctChar && c2 == sChar <;> simp
    rw [buildScan.eq_def] at hok
    simp only [hm2, Bool.false_eq_true, if_false, hinner, Except.ok.injEq,
      Prod.mk.injEq] at hok
    obtain ⟨ho, hb⟩ := hok
    subst ho; subst hb
    obtain ⟨hcnt, hhead⟩ := ih out2 bps2 hinner hs
    constructor
    · rw [countPH_cons c1 out2 (by
        rw [hhead]
        exact hm2)]
      exact hcnt
    · cases out2 with
      | nil => rfl
      | cons d o3 => rfl
  | case11 c1 c2 rest ps idx hm e hinner ih =>
    intro out bps hok _
    have hm2 : (c1 == pctChar && c2 == sChar) = false := by
      revert hm
      cases c1 == pctChar && c2 == sChar <;> simp
    rw [buildScan.eq_def] at hok
    simp only [hm2, Bool.false_eq_true, if_false, hinner] at hok
    exact Except.noConfusion hok

theorem buildScan_bps (total : Nat) (sql : List Char) (ps : List Param) (idx : Nat) :
    ∀ (out : List Char) (bps : List Int),
    buildScan total sql ps idx = .ok (out, bps) → bps = literalVals ps := by
  induction sql, ps, idx using buildScan.induct total with
  | case1 x =>
    intro out bps hok
    simp only [buildScan, Except.ok.injEq, Prod.mk.injEq] at hok
    exact hok.2.symm
  | case2 p ps2 idx =>
    intro out bps hok
    exact Except.noConfusion hok
  | case3 c ps idx out2 bps2 hinner ih =>
    intro out bps hok
    rw [buildScan, hinner] at hok
    simp only [Except.ok.injEq, Prod.mk.injEq] at hok
    rw [← hok.2]
    exact ih out2 bps2 hinner
  | case4 c ps idx e hinner ih =>
    intro out bps hok
    rw [buildScan, hinner] at hok
    exact Except.noConfusion hok
  | case5 c1 c2 rest idx hm ps2 text out2 bps2 hinner ih =>
    intro out bps hok
    rw [buildScan, if_pos hm, hinner] at hok
    simp only [Except.ok.injEq, Prod.mk.injEq] at hok
    rw [← hok.2, literalVals]
    exact ih out2 bps2 hinner
  | case6 c1 c2 rest idx hm ps2 text e hinner ih =>
    intro out bps hok
    rw [buildScan, if_pos hm, hinner] at hok
    exact Except.noConfusion hok
  | case7 c1 c2 rest idx hm ps2 v out2 bps2 hinner ih =>
    intro out bps hok
    rw [buildScan, if_pos hm, hinner] at hok
    simp only [Except.ok.injEq, Prod.mk.injEq] at hok
    rw [← hok.2, literalVals, ih out2 bps2 hinner]
  | case8 c1 c2 rest idx hm ps2 v e hinner ih =>
    intro out bps hok
    rw [buildScan, if_pos hm, hinner] at hok
    exact Except.noConfusion hok
  | case9 c1 c2 rest idx hm =>
    intro out bps hok
    rw [buildScan, if_pos hm] at hok
    exact Except.noConfusion hok
  | case10 c1 c2 rest ps idx hm out2 bps2 hinner ih =>
    intro out bps hok
    have hm2 : (c1 == pctChar && c2 == sChar) = false := by
      revert hm
      cases c1 == pctChar && c2 == sChar <;> simp
    rw [buildScan.eq_def] at hok
    simp only [hm2, Bool.false_eq_true, if_false, hinner, Except.ok.injEq,
      Prod.mk.injEq] at hok
    rw [← hok.2]
    exact ih out2 bps2 hinner
  | case11 c1 c2 rest ps idx hm e hinner ih =>
    intro out bps hok
    have hm2 : (c1 == pctChar && c2 == sChar) = false := by
      revert hm
      cases c1 == pctChar && c2 == sChar <;> simp
    rw [buildScan.eq_def] at hok
    simp only [hm2, Bool.false_eq_true, if_false, hinner] at hok
    exact Except.noConfusion hok

theorem buildScan_id (total : Nat) :
    ∀ (sql : List Char) (ps : List Param) (idx : Nat),
    countPH sql = ps.length → (∀ p ∈ ps, p.isExpr = false) →
    buildScan total sql ps idx = .ok (sql, literalVals ps) := by
  intro sql
  induction sql using countPH.induct with
  | case1 =>
    intro ps idx hc _
    have : ps = [] := by
      cases ps with
      | nil => rfl
      | cons p ps2 => simp [countPH] at hc
    subst this
    rfl
  | case2 c =>
    intro ps idx hc _
    have : ps = [] := by
      cases ps with
      | nil => rfl
      | cons p ps2 => simp [countPH] at hc
    subst this
    rfl
  | case3 c1 c2 rest hm ih =>
    intro ps idx hc hne
    rw [countPH, if_pos hm] at hc
    cases ps with
    | nil => simp at hc
    | cons p ps2 =>
      have hc2 : countPH rest = ps2.length := by
        simpa using hc
      have hpe : p.isExpr = false := hne p (by simp)
      cases p with
      | expr t => simp [Param.isExpr] at hpe
      | val v =>
        have ihh := ih ps2 (idx + 1) hc2 (fun q hq => hne q (by simp [hq]))
        have h1 : c1 = pctChar := by
          have := hm
          simp [Bool.and_eq_true] at this
          exact this.1
        have h2 : c2 = sChar := by
          have := hm
          simp [Bool.and_eq_true] at this
          exact this.2
        subst h1; subst h2
        simp only [buildScan, hm, if_true, ihh, literalVals]
  | case4 c1 c2 rest hm ih =>
    intro ps idx hc hne
    have hm2 : (c1 == pctChar && c2 == sChar) = false := by
      simpa using hm
    rw [countPH, if_neg (by simp [hm2])] at hc
    have ihh := ih ps idx hc hne
    simp only [buildScan, hm2, Bool.false_eq_true, if_false, ihh]

theorem buildScan_errors (total : Nat) :
    ∀ (sql : List Char) (ps : List Param) (idx : Nat),
    (ps.length < countPH sql →
      buildScan total sql ps idx = .error (.tooFewParams (idx + ps.length + 1) total)) ∧
    (countPH sql < ps.length →
      buildScan total sql ps idx = .error (.tooManyParams (idx + countPH sql) total)) ∧
    (countPH sql = ps.length →
      ∃ out bps, buildScan total sql ps idx = .ok (out, bps)) := by
  intro sql
  induction sql using countPH.induct with
  | case1 =>
    intro ps idx
    refine ⟨?_, ?_, ?_⟩
    · intro h
      simp [countPH] at h
    · intro h
      cases ps with
      | nil => simp at h
      | cons p ps2 =>
        simp only [buildScan, countPH, Nat.add_zero]
    · intro h
      cases ps with
      | nil => exact ⟨[], [], rfl⟩
      | cons p ps2 => simp [countPH] at h
  | case2 c =>
    intro ps idx
    refine ⟨?_, ?_, ?_⟩
    · intro h
      simp [countPH] at h
    · intro h
      cases ps with
      | nil => simp at h
      | cons p ps2 =>
        rw [buildScan]
        simp only [buildScan, countPH, Nat.add_zero]
    · intro h
      cases ps with
      | nil => exact ⟨[c], [], rfl⟩
      | cons p ps2 => simp [countPH] at h
  | case3 c1 c2 rest hm ih =>
    intro ps idx
    have hcnt : countPH (c1 :: c2 :: rest) = countPH rest + 1 := by
      rw [countPH, if_pos hm]
    cases ps with
    | nil =>
      refine ⟨?_, ?_, ?_⟩
      · intro _
        rw [buildScan, if_pos hm]
        simp
      · intro h
        simp at h
      · intro h
        rw [hcnt] at h
        simp at h
    | cons p ps2 =>
      have hlen : (p :: ps2).length = ps2.length + 1 := rfl
      refine ⟨?_, ?_, ?_⟩
      · intro h
        rw [hcnt, hlen] at h
        have h2 : ps2.length < countPH rest := by omega
        have hrec := (ih ps2 (idx + 1)).1 h2
        have harith : idx + 1 + ps2.length + 1 = idx + (ps2.length + 1) + 1 := by omega
        cases p with
        | expr t =>
          rw [buildScan, if_pos hm, hrec, harith, hlen]
        | val v =>
          rw [buildScan, if_pos hm, hrec, harith, hlen]
      · intro h
        rw [hcnt, hlen] at h
        have h2 : countPH rest < ps2.length := by omega
        have hrec := (ih ps2 (idx + 1)).2.1 h2
        have harith : idx + 1 + countPH rest = idx + (countPH rest + 1) := by omega
        cases p with
        | expr t =>
          rw [buildScan, if_pos hm, hrec, harith, hcnt]
        | val v =>
          rw [buildScan, if_pos hm, hrec, harith, hcnt]
      · intro h
        rw [hcnt, hlen] at h
        have h2 : countPH rest = ps2.length := by omega
        obtain ⟨out2, bps2, hrec⟩ := (ih ps2 (idx + 1)).2.2 h2
        cases p with
        | expr t =>
          refine ⟨t ++ out2, bps2, ?_⟩
          rw [buildScan, if_pos hm, hrec]
        | val v =>
          refine ⟨pctChar :: sChar :: out2, v :: bps2, ?_⟩
          rw [buildScan, if_pos hm, hrec]
  | case4 c1 c2 rest hm ih =>
    intro ps idx
    have hm2 : (c1 == pctChar && c2 == sChar) = false := by
      revert hm
      cases c1 == pctChar && c2 == sChar <;> simp
    have hcnt : countPH (c1 :: c2 :: rest) = countPH (c2 :: rest) := by
      rw [countPH, if_neg (by simp [hm2])]
    refine ⟨?_, ?_, ?_⟩
    · intro h
      rw [hcnt] at h
      have hrec := (ih ps idx).1 h
      rw [buildScan.eq_def]
      simp only [hm2, Bool.false_eq_true, if_false, hrec]
    · intro h
      rw [hcnt] at h
      have hrec := (ih ps idx).2.1 h
      rw [buildScan.eq_def]
      simp only [hm2, Bool.false_eq_true, if_false, hrec, hcnt]
    · intro h
      rw [hcnt] at h
      obtain ⟨out2, bps2, hrec⟩ := (ih ps idx).2.2 h
      refine ⟨c1 :: out2, bps2, ?_⟩
      rw [buildScan.eq_def]
      simp only [hm2, Bool.false_eq_true, if_false, hrec]

theorem all_literals_map (ps : List Param) (hlit : ∀ p ∈ ps, p.isExpr = false) :
    ps = (literalVals ps).map Param.val := by
  induction ps with
  | nil => rfl
  | cons p ps2 ih =>
    cases p with
    | expr t =>
      have := hlit (.expr t) (by simp)
      simp [Param.isExpr] at this
    | val v =>
      rw [literalVals, List.map_cons]
      rw [← ih (fun q hq => hlit q (by simp [hq]))]

/-- Claim C2: for every template with N placeholder occurrences and every
parameter sequence of exactly N values, none of which is an Expression,
build returns the template string unchanged as final sql and the bound
parameters equal the input parameters in the same order. -/
theorem build_all_literals_identity (sql : List Char) (ps : List Param)
    (hcount : countPH sql = ps.length)
    (hlit : ∀ p ∈ ps, p.isExpr = false) :
    build sql ps = .ok (sql, literalVals ps) ∧
    ps = (literalVals ps).map Param.val := by
  refine ⟨?_, all_literals_map ps hlit⟩
  rw [build, buildParams]
  cases hps : ps.isEmpty with
  | true =>
    have hnil : ps = [] := by
      cases ps with
      | nil => rfl
      | cons p ps2 => simp at hps
    subst hnil
    simp [ParamsArg.isEmptyArg, literalVals]
  | false =>
    simp only [ParamsArg.isEmptyArg, hps, Bool.false_eq_true, if_false,
      ParamsArg.toTuple]
    exact buildScan_id ps.length sql ps 0 hcount hlit

/-- Witness for C2 at a concrete two-placeholder template with two
literal parameters. -/
theorem build_all_literals_identity_witness :
    build "SELECT * FROM t WHERE a=%s AND b=%s".toList [Param.val 1, Param.val 2] =
      .ok ("SELECT * FROM t WHERE a=%s AND b=%s".toList, [1, 2]) ∧
    [Param.val 1, Param.val 2] = ([1, 2] : List Int).map Param.val := by
  have h := build_all_literals_identity "SELECT * FROM t WHERE a=%s AND b=%s".toList
    [Param.val 1, Param.val 2] (by decide) (by decide)
  exact ⟨h.1.trans (by decide), by decide⟩

/-- Claim C3 (amended): for a NON-EMPTY parameter sequence, build fails
with a count-mismatch error exactly when the placeholder count differs
from the parameter count — fewer parameters than placeholders yield the
"more placeholders" error before any output is produced, more parameters
than placeholders (including any non-empty parameter list against a
zero-placeholder template) yield the "too many parameters" error
reporting both counts; with an empty (or missing) parameter sequence
build instead returns the template unchanged with no scanning, even when
the template has placeholders. -/
theorem build_count_mismatch_amended (sql : List Char) (ps : List Param)
    (hne : ps ≠ []) :
    (ps.length < countPH sql →
      build sql ps = .error (.tooFewParams (ps.length + 1) ps.length)) ∧
    (countPH sql < ps.length →
      build sql ps = .error (.tooManyParams (countPH sql) ps.length)) ∧
    (countPH sql = ps.length → ∃ r, build sql ps = .ok r) := by
  have hps : ps.isEmpty = false := by
    cases ps with
    | nil => exact absurd rfl hne
    | cons p ps2 => rfl
  have hunfold : build sql ps = buildScan ps.length sql ps 0 := by
    rw [build, buildParams]
    simp [ParamsArg.isEmptyArg, hps, ParamsArg.toTuple]
  obtain ⟨h1, h2, h3⟩ := buildScan_errors ps.length sql ps 0
  refine ⟨?_, ?_, ?_⟩
  · intro h
    rw [hunfold, h1 h]
    simp
  · intro h
    rw [hunfold, h2 h]
    simp
  · intro h
    obtain ⟨out, bps, hok⟩ := h3 h
    exact ⟨(out, bps), hunfold.trans hok⟩

/-- Witness for C3 at concrete inputs: one placeholder-deficit call, one
parameter-surplus call against a zero-placeholder template, and one
matching call. -/
theorem build_count_mismatch_amended_witness :
    build "%s %s".toList [Param.val 1] = .error (.tooFewParams 2 1) ∧
    build "DELETE FROM t".toList [Param.val 1] = .error (.tooManyParams 0 1) ∧
    ∃ r, build "id=%s".toList [Param.val 1] = .ok r := by
  refine ⟨?_, ?_, ?_⟩
  · exact (build_count_mismatch_amended "%s %s".toList [Param.val 1] (by decide)).1
      (by decide)
  · exact (build_count_mismatch_amended "DELETE FROM t".toList [Param.val 1]
      (by decide)).2.1 (by decide)
  · exact (build_count_mismatch_amended "id=%s".toList [Param.val 1] (by decide)).2.2
      (by decide)

/-- Counterexample for C3 as stated: an empty parameter sequence against a
template that has a placeholder does not fail — build returns the template
unchanged with an empty bound tuple. -/
theorem build_count_mismatch_counterexample :
    build "SELECT a FROM t WHERE b=%s".toList [] =
      .ok ("SELECT a FROM t WHERE b=%s".toList, []) ∧
    countPH "SELECT a FROM t WHERE b=%s".toList = 1 := by decide

/-- Claim C1 (amended): for every accepted build call — with no
restriction on the parameters — the bound parameters are exactly the
literal (non-Expression) parameters in their original relative order, so
Expressions never appear among them; and when additionally the parameter
sequence is non-empty and every inlined Expression text is splice-safe
(it cannot contain or create a placeholder marker), the number of
placeholder markers remaining in the final SQL equals the number of
bound parameters.  (An empty parameter sequence returns the template
unchanged, so its placeholders survive with no bound parameters; and an
Expression text containing a marker adds markers to the final SQL beyond
the bound-parameter count.) -/
theorem build_bound_params_amended (sql : List Char) (ps : List Param)
    (out : List Char) (bps : List Int)
    (hok : build sql ps = .ok (out, bps)) :
    bps = literalVals ps ∧
    (ps ≠ [] → paramsSafe ps = true → countPH out = bps.length) := by
  rw [build, buildParams] at hok
  cases hps : ps.isEmpty with
  | true =>
    have hnil : ps = [] := by
      cases ps with
      | nil => rfl
      | cons p ps2 => simp at hps
    subst hnil
    simp only [ParamsArg.isEmptyArg, List.isEmpty_nil, if_true, Except.ok.injEq,
      Prod.mk.injEq] at hok
    exact ⟨hok.2.symm, fun h _ => absurd rfl h⟩
  | false =>
    rw [ParamsArg.isEmptyArg] at hok
    rw [hps] at hok
    simp only [Bool.false_eq_true, if_false, ParamsArg.toTuple] at hok
    refine ⟨buildScan_bps ps.length sql ps 0 out bps hok, fun _ hsafe => ?_⟩
    exact (buildScan_count ps.length sql ps 0 out bps hok hsafe).1

/-- Witness for C1 at the worked example of the specification:
build("UPDATE t SET age=%s WHERE id=%s", (Expression("age+1"), 5))
returns ("UPDATE t SET age=age+1 WHERE id=%s", (5,)), the bound tuple is
exactly the literal 5, and one marker remains for the one bound value. -/
theorem build_bound_params_amended_witness :
    build "UPDATE t SET age=%s WHERE id=%s".toList
      [Param.expr "age+1".toList, Param.val 5] =
      .ok ("UPDATE t SET age=age+1 WHERE id=%s".toList, [5]) ∧
    [(5 : Int)] = literalVals [Param.expr "age+1".toList, Param.val 5] ∧
    countPH "UPDATE t SET age=age+1 WHERE id=%s".toList = 1 := by
  have h := build_bound_params_amended "UPDATE t SET age=%s WHERE id=%s".toList
    [Param.expr "age+1".toList, Param.val 5]
    "UPDATE t SET age=age+1 WHERE id=%s".toList [5] (by decide)
  refine ⟨by decide, h.1, ?_⟩
  have h2 := h.2 (by decide) (by decide)
  exact h2.trans (by decide)

/-- Counterexample for C1 as stated: two accepted calls whose final SQL
keeps more placeholder markers than there are bound parameters — an
Expression whose text itself contains the marker, and an empty parameter
sequence against a template with placeholders. -/
theorem build_bound_params_counterexample :
    build "SELECT %s".toList [Param.expr "a %s b".toList] =
      .ok ("SELECT a %s b".toList, []) ∧
    countPH "SELECT a %s b".toList = 1 ∧
    build "INSERT INTO t VALUES (%s, %s)".toList [] =
      .ok ("INSERT INTO t VALUES (%s, %s)".toList, []) ∧
    countPH "INSERT INTO t VALUES (%s, %s)".toList = 2 := by decide

/-- Claim C10: when the params argument is a dict, build treats the dict
values, in insertion order, as the positional parameter sequence and
ignores the keys: the result coincides with the tuple call on the values. -/
theorem build_dict_uses_values_in_order (sql : List Char)
    (es : List (String × Param)) :
    buildParams sql (.dct es) = buildParams sql (.tup (es.map Prod.snd)) := by
  cases es with
  | nil => rfl
  | cons e es2 => rfl

theorem getLast_take_indexOf {α : Type} [DecidableEq α] (l : List α) (a : α)
    (h : a ∈ l) :
    (l.take (l.indexOf a + 1)).getLast? = some a := by
  have hlt : l.indexOf a < l.length := List.indexOf_lt_length.mpr h
  have hlen : (l.take (l.indexOf a + 1)).length = l.indexOf a + 1 := by
    rw [List.length_take]
    omega
  rw [List.getLast?_eq_getElem?, hlen]
  simp only [Nat.add_sub_cancel]
  rw [List.getElem?_take, if_pos (by omega), List.getElem?_eq_getElem hlt,
    List.getElem_indexOf hlt]

/-- Claim C7: rollback_to_savepoint fails with a transaction protocol
error identifying the missing savepoint when the name is not tracked;
otherwise it sends ROLLBACK TO SAVEPOINT and truncates the tracked stack
to the entries up to and including the name — the kept entries are an
initial segment of the old stack ending at the name, and the old stack is
the kept entries followed by the discarded ones. -/
theorem rollback_to_savepoint_correct (st : ATxState) (name : String) :
    (name ∉ st.savepoints →
      rollbackToSavepointA st name =
        .error (.transactionError
          ("Savepoint '" ++ name ++ "' does not exist or has already been released."))) ∧
    (name ∈ st.savepoints →
      rollbackToSavepointA st name =
        .ok ({ st with savepoints := st.savepoints.take (st.savepoints.indexOf name + 1) },
          ["ROLLBACK TO SAVEPOINT " ++ name]) ∧
      (st.savepoints.take (st.savepoints.indexOf name + 1)).getLast? = some name ∧
      st.savepoints.take (st.savepoints.indexOf name + 1) ++
        st.savepoints.drop (st.savepoints.indexOf name + 1) = st.savepoints) := by
  constructor
  · intro hnot
    rw [rollbackToSavepointA, if_neg hnot]
  · intro hmem
    exact ⟨by rw [rollbackToSavepointA, if_pos hmem],
      getLast_take_indexOf st.savepoints name hmem,
      List.take_append_drop _ _⟩

/-- Witness for C7 at the worked example of the specification: after
creating sp_0 and then sp_1, rolling back to sp_0 keeps sp_0 and discards
sp_1 from the tracked stack. -/
theorem rollback_to_savepoint_correct_witness :
    ("sp_0" ∈ ["sp_0", "sp_1"]) ∧
    rollbackToSavepointA
        { state := TxState.active, savepoints := ["sp_0", "sp_1"], savepointCounter := 2 }
        "sp_0" =
      .ok ({ state := TxState.active, savepoints := ["sp_0"], savepointCounter := 2 },
        ["ROLLBACK TO SAVEPOINT sp_0"]) := by
  have h := (rollback_to_savepoint_correct
    { state := TxState.active, savepoints := ["sp_0", "sp_1"], savepointCounter := 2 }
    "sp_0").2 (by decide)
  exact ⟨by decide, h.1.trans (by decide)⟩

/-- Claim C8 (amended): in transaction.py, creating a savepoint with no
active transaction implicitly begins one first rather than failing — the
emitted trace is the BEGIN statement followed by the SAVEPOINT statement,
the transaction ends active with the savepoint name recorded, and no
transaction protocol error exists on this path (the method only raises on
driver errors).  The AsyncPostgresTransactionManager of
async_transaction.py instead rejects the call with a protocol error; see
the counterexample. -/
theorem create_savepoint_implicit_begin_amended (st : PgTxMixinState)
    (name : String) (h : st.isActive = false)
    (hcp : st.connPresent = true) (hcc : st.connClosed = false) :
    (doCreateSavepoint st name).2 =
      [buildBeginStatement { st with connAutocommit := false },
        "SAVEPOINT " ++ name] ∧
    (doCreateSavepoint st name).1.isActive = true ∧
    (doCreateSavepoint st name).1.activeSavepoint = some name ∧
    (doCreateSavepoint st name).1.state = TxState.active := by
  have hsteps : doCreateSavepoint st name =
      ({ (doBegin st).1 with activeSavepoint := some name },
        (doBegin st).2 ++ ["SAVEPOINT " ++ name]) := by
    rw [doCreateSavepoint, h]
    rfl
  rw [hsteps]
  refine ⟨rfl, ?_, rfl, rfl⟩
  simp [doBegin, PgTxMixinState.isActive, hcp, hcc]

/-- Witness for C8 on a concrete inactive manager state. -/
theorem create_savepoint_implicit_begin_amended_witness :
    (doCreateSavepoint sampleInactiveTx "SP_1").2 = ["BEGIN", "SAVEPOINT SP_1"] ∧
    (doCreateSavepoint sampleInactiveTx "SP_1").1.isActive = true ∧
    (doCreateSavepoint sampleInactiveTx "SP_1").1.activeSavepoint = some "SP_1" ∧
    (doCreateSavepoint sampleInactiveTx "SP_1").1.state = TxState.active := by
  have h := create_savepoint_implicit_begin_amended sampleInactiveTx "SP_1"
    (by decide) (by decide) (by decide)
  exact ⟨h.1.trans (by decide), h.2.1, h.2.2.1, h.2.2.2⟩

/-- Counterexample for C8 as stated: the async_transaction.py manager
raises a transaction protocol error precisely because no transaction is
active, instead of implicitly beginning one. -/
theorem create_savepoint_counterexample :
    ATxState.initial.state ≠ TxState.active ∧
    createSavepointA ATxState.initial none =
      .error (.transactionError
        "Cannot create savepoint outside of an active transaction.") := by decide

/-- Claim C4 (amended): the error handlers of backend.py
(`PostgresBackend._handle_error`, `AsyncPostgresBackend._handle_error`)
send no recovery statement at all — they only map, log and re-raise, even
while a transaction is open.  The recovery-rollback behaviour the claim
describes belongs to the alternative `AsyncPostgresBackend._handle_error`
of async_backend.py: with an active transaction manager it attempts the
manager rollback before classifying, and the error it raises is the
classification of the original exception, independent of whether either
rollback attempt fails (rollback failures are only logged and never mask
the original error). -/
theorem handle_error_recovery_amended (txOpen : Bool) (e : NativeError)
    (env env2 : RollbackEnv)
    (hp : env.managerPresent = true) (ha : env.managerActive = true) :
    (backendHandleError txOpen e).1 = [] ∧
    RecoveryAction.managerRollback ∈ (asyncHandleError env e).1 ∧
    (asyncHandleError env e).2 = (asyncHandleError env2 e).2 ∧
    (asyncHandleError env e).2 = asyncClassifyError e := by
  refine ⟨rfl, ?_, rfl, rfl⟩
  simp only [asyncHandleError, tryRollbackActions, hp, ha, Bool.and_self]
  cases env.managerRollbackFails with
  | true => simp
  | false => simp

/-- Witness for C4 at a concrete operational error, with one environment
where the manager rollback fails and one where it succeeds. -/
theorem handle_error_recovery_amended_witness :
    (backendHandleError true (NativeError.operationalError "boom")).1 = [] ∧
    RecoveryAction.managerRollback ∈
      (asyncHandleError ⟨true, true, true, false, true, false⟩
        (NativeError.operationalError "boom")).1 ∧
    (asyncHandleError ⟨true, true, true, false, true, false⟩
        (NativeError.operationalError "boom")).2 =
      (asyncHandleError ⟨true, true, true, false, false, false⟩
        (NativeError.operationalError "boom")).2 ∧
    (asyncHandleError ⟨true, true, true, false, true, false⟩
        (NativeError.operationalError "boom")).2 =
      asyncClassifyError (NativeError.operationalError "boom") :=
  handle_error_recovery_amended true (NativeError.operationalError "boom")
    ⟨true, true, true, false, true, false⟩ ⟨true, true, true, false, false, false⟩
    rfl rfl

/-- Counterexample for C4 as stated: on a driver statement error while a
transaction is open, the backend.py error handler performs no rollback at
all — its recovery-action trace is empty. -/
theorem handle_error_no_rollback_counterexample :
    backendHandleError true
        (NativeError.operationalError "current transaction is aborted") =
      ([], MappedError.operationalError "current transaction is aborted") := rfl

/-- Claim C5 (amended): the backend.py error mapper classifies by
exception type only and never inspects the message: every native
operational failure maps to OperationalError whether or not its message
contains a deadlock marker, and — because psycopg3's deadlock-specific
exception type subclasses the operational type — the deadlock-specific
exception is also captured by the operational branch and maps to
OperationalError, leaving the DeadlockError branch unreachable. -/
theorem map_exception_type_only_amended (msg : String) :
    mapException (.operationalError msg) = .operationalError msg ∧
    mapException (.deadlockDetected msg) = .operationalError msg ∧
    mapException (.integrityError msg) = .integrityError msg ∧
    mapException (.programmingError msg) = .queryError msg ∧
    mapException (.otherPgError msg) = .databaseError msg ∧
    mapException (.nonPgError msg) = .reRaised (.nonPgError msg) :=
  ⟨rfl, rfl, rfl, rfl, rfl, rfl⟩

/-- Counterexample for C5 as stated: a native operational failure whose
message contains the deadlock marker is mapped to OperationalError, not
DeadlockError. -/
theorem map_exception_deadlock_message_counterexample :
    mapException (.operationalError "deadlock detected") =
      .operationalError "deadlock detected" ∧
    (mapException (.operationalError "deadlock detected")).isDeadlockErr = false :=
  ⟨rfl, rfl⟩

/-- Claim C6: evaluation at the failing input.  On the
async_transaction.py manager, the sequence begin, create_savepoint,
commit succeeds, but after the successful commit the tracked savepoint
stack still holds sp_0 and the savepoint name counter is still 1 —
commit performs no cleanup there.  By contrast the transaction.py
_do_commit clears the savepoint tracking, resets the counter to zero and
clears the deferred constraints even when the COMMIT statement itself
fails (the failure still being raised as a TransactionError). -/
theorem async_commit_no_cleanup_bug :
    beginA ATxState.initial none =
      .ok ({ state := .active, savepoints := [], savepointCounter := 0 }, ["BEGIN"]) ∧
    createSavepointA { state := .active, savepoints := [], savepointCounter := 0 } none =
      .ok ({ state := .active, savepoints := ["sp_0"], savepointCounter := 1 },
        ["SAVEPOINT sp_0"], "sp_0") ∧
    commitA { state := .active, savepoints := ["sp_0"], savepointCounter := 1 } =
      .ok ({ state := .committed, savepoints := ["sp_0"], savepointCounter := 1 },
        ["COMMIT"]) ∧
    ["sp_0"] ≠ ([] : List String) ∧ (1 : Nat) ≠ 0 ∧
    (doCommit sampleActiveTx (some "server closed the connection")).1.activeSavepoint =
      none ∧
    (doCommit sampleActiveTx (some "server closed the connection")).1.savepointCounter =
      0 ∧
    (doCommit sampleActiveTx (some "server closed the connection")).1.deferredConstraints =
      [] ∧
    (doCommit sampleActiveTx (some "server closed the connection")).2 =
      some (.transactionError
        "Failed to commit transaction: server closed the connection") ∧
    sampleActiveTx.savepointCounter = 3 := by decide

/-- Claim C9: evaluation at the failing input.  Calling set_deferrable on
an ACTIVE transaction raises the TransactionError, but the stored
deferrable flag has already been overwritten — the assignment precedes
the activity check — so the flag is NOT left unchanged: it goes from none
to some true even though the call fails. -/
theorem set_deferrable_mutates_bug :
    sampleActiveTx.isActive = true ∧
    sampleActiveTx.isDeferrable = none ∧
    (setDeferrable sampleActiveTx true).2 =
      some (.transactionError "Cannot change deferrable mode of active transaction") ∧
    (setDeferrable sampleActiveTx true).1.isDeferrable = some true := by decide
